import Mathlib

/-!
Shallow embedding of the service layer of the Back-end_Node repository:
BaseService (generic CRUD over one Mongoose model), ProductService
(pagination, reviews, top products) and the register handler of
UserController.  Store calls are modelled as Except values: error e is a
rejected promise with message e, ok none is a resolved null, ok (some x)
is a resolved document.
-/

/-- A JavaScript number as used by this code: either an exact numeric
value (modelled as a rational) or NaN.  Infinities never arise on the
paths verified here. -/
inductive JSNum where
  | num (q : ℚ)
  | nan
deriving DecidableEq, Repr

/-- JS addition on the values above: NaN propagates. -/
def jsAdd : JSNum → JSNum → JSNum
  | .num a, .num b => .num (a + b)
  | _, _ => .nan

/-- JS division: NaN propagates.  The zero-divisor case is unreachable in
this development (the only division is by a collection length that is at
least 1); it is mapped to NaN rather than adding infinities to the model. -/
def jsDiv : JSNum → JSNum → JSNum
  | .num a, .num b => if b = 0 then .nan else .num (a / b)
  | _, _ => .nan

/-- A JS value that can appear as an argument or in a local variable on
the verified paths: a number or a string. -/
inductive JSValue where
  | num (q : ℚ)
  | str (s : String)
deriving DecidableEq, Repr

/-- Decimal value of a digit string. -/
def strToNat (s : String) : Nat :=
  s.toList.foldl (fun acc c => acc * 10 + (c.toNat - 48)) 0

/-- JS Number() conversion of a string, restricted to the literals these
claims exercise: the empty string converts to 0, an unsigned decimal
literal to its value, anything else to NaN.  Signs, fractions, exponents
and surrounding whitespace are not exercised and not modelled. -/
def strToNumber (s : String) : JSNum :=
  if s = "" then .num 0
  else if s.toList.all Char.isDigit then .num (strToNat s)
  else .nan

/-- JS Number() coercion on the modelled values. -/
def jsToNumber : JSValue → JSNum
  | .num q => .num q
  | .str s => strToNumber s

/-- JS truthiness of the modelled values. -/
def truthy : JSValue → Bool
  | .num q => q ≠ 0
  | .str s => s ≠ ""

/-- A document field value. -/
inductive Val where
  | str (s : String)
  | num (q : ℚ)
  | bool (b : Bool)
deriving DecidableEq, Repr

/-- A Mongoose document, modelled as an ordered association list of
field names to values (first occurrence of a key is its binding). -/
abbrev Doc := List (String × Val)

/-- Field access on a document. -/
def Doc.get (d : Doc) (k : String) : Option Val :=
  match d with
  | [] => none
  | (k', v) :: rest => if k' = k then some v else Doc.get rest k

/-- One JS property assignment target[k] = v: overwrites the binding of
an existing key in place, otherwise appends the new key. -/
def setField (d : Doc) (kv : String × Val) : Doc :=
  match d with
  | [] => [kv]
  | (k', v') :: rest =>
    if k' = kv.1 then (k', kv.2) :: rest else (k', v') :: setField rest kv

/-- Object.assign(item, data): assigns every own property of data onto
item, in order; a shallow field overwrite, not a deep merge. -/
def objectAssign (item : Doc) (data : Doc) : Doc :=
  data.foldl setField item

/-- BaseService.getById: awaits this.model.findById(id) and wraps a
store rejection with the retrieval prefix; a resolved null (absent
record) is returned as is, not an error. -/
def BaseService.getById {α : Type} (findById : Except String (Option α)) :
    Except String (Option α) :=
  match findById with
  | .error e => .error ("Error while retrieving this item : " ++ e)
  | .ok r => .ok r

/-- BaseService.create: awaits newItem.save() and wraps a store
rejection with the creation prefix. -/
def BaseService.create {α : Type} (save : Except String α) : Except String α :=
  match save with
  | .error e => .error ("Error creating item : " ++ e)
  | .ok x => .ok x

/-- BaseService.update: awaits findById inside the try block, so both a
findById rejection and the functions own `modelName not found` throw are
caught and re-wrapped with the update prefix.  The final
`return item.save()` is not awaited, so a rejection of save bypasses the
catch and escapes unwrapped. -/
def BaseService.update (modelName : String)
    (findById : Except String (Option Doc)) (save : Doc → Except String Doc)
    (data : Doc) : Except String Doc :=
  match findById with
  | .error e => .error ("Error on updating item : " ++ e)
  | .ok none => .error ("Error on updating item : " ++ (modelName ++ " not found"))
  | .ok (some item) => save (objectAssign item data)

/-- BaseService.delete: same structure as update; the not-found throw is
re-wrapped by the functions own catch, and the final
`return item.remove()` is not awaited, so a rejection of remove escapes
unwrapped. -/
def BaseService.delete {α : Type} (modelName : String)
    (findById : Except String (Option α)) (remove : α → Except String α) :
    Except String α :=
  match findById with
  | .error e => .error ("Error on deleting item : " ++ e)
  | .ok none => .error ("Error on deleting item : " ++ (modelName ++ " not found"))
  | .ok (some item) => remove item

/-- The bare not-found message the source throws for an absent record. -/
def notFoundMessage (modelName : String) : String := modelName ++ " not found"

/-- The generic wrapped form of an update failure (StoreFailure shape in
the spec taxonomy). -/
def isUpdateWrapped (msg : String) : Prop :=
  ∃ c, msg = "Error on updating item : " ++ c

/-- An embedded review: denormalized reviewer name, the stored rating
value, the comment, and the reviewer id (user field of the subdocument). -/
structure Review where
  name : String
  rating : JSNum
  comment : String
  user : Nat
deriving DecidableEq, Repr

/-- A product document.  Only the fields the verified operations touch
are modelled; the remaining catalog fields (description, price, stock,
image) are never read or written on these paths. -/
structure Product where
  _id : Nat
  name : String
  reviews : List Review
  numReviews : Nat
  rating : JSNum
deriving DecidableEq, Repr

/-- The request user object passed to productReview. -/
structure JSUser where
  _id : Nat
  name : String
deriving DecidableEq, Repr

/-- Lookup of an identifier in a JS scope (innermost binding first). -/
def varLookup (scope : List (String × JSValue)) (x : String) : Option JSValue :=
  match scope with
  | [] => none
  | (y, v) :: rest => if y = x then some v else varLookup rest x

/-- The pattern is a prefix of the text. -/
def startsWithChars : List Char → List Char → Bool
  | [], _ => true
  | _ :: _, [] => false
  | a :: as, b :: bs => a == b && startsWithChars as bs

/-- The pattern occurs as a contiguous run somewhere in the text. -/
def occursWithin (pat : List Char) : List Char → Bool
  | [] => pat.isEmpty
  | c :: rest => startsWithChars pat (c :: rest) || occursWithin pat rest

/-- Case-insensitive substring test: the regex with option i built from
the keywords matches somewhere inside the product name. -/
def ciContains (name kw : String) : Bool :=
  occursWithin kw.toLower.toList name.toLower.toList

/-- The result shape of allProducts. -/
structure AllProductsResult where
  products : List Product
  page : Int
  pages : Nat
deriving DecidableEq, Repr

/-- ProductService.allProducts.  The source computes
skip = pageSize * (pageNumber - 1) and then evaluates
`const query = keyword ? ... : ...`; the identifier keyword is not bound
anywhere in scope (the parameter is named keywords), so evaluating it
throws a ReferenceError.  The rest of the pipeline (count, find with
limit and skip, ceil page count) is embedded in the other branch, which
no call can reach. -/
def ProductService.allProducts (store : List Product)
    (pageNumber pageSize : Int) (keywords : String) :
    Except String AllProductsResult :=
  let skip : Int := pageSize * (pageNumber - 1)
  let scope : List (String × JSValue) :=
    [("pageNumber", .num pageNumber), ("pageSize", .num pageSize),
     ("keywords", .str keywords), ("skip", .num skip)]
  match varLookup scope "keyword" with
  | none => .error "ReferenceError: keyword is not defined"
  | some v =>
    let query : Product → Bool :=
      if truthy v then (fun p => ciContains p.name keywords) else (fun _ => true)
    let matching := store.filter query
    let count := matching.length
    let products := (matching.drop skip.toNat).take pageSize.toNat
    .ok { products := products, page := pageNumber,
          pages := (count + pageSize.toNat - 1) / pageSize.toNat }

/-- The sort key of the topProducts query, .sort with range : -1.
Modelled from the spec: the persisted Product shape has fields name,
description, price, stock, image, rating, numReviews and reviews; there
is no range path, so the sort key is absent (null) on every document. -/
def productRange (_p : Product) : Option Int := none

/-- BSON comparison of the optional sort key: an absent key sorts as
null, below every number. -/
def keyLe (a b : Option Int) : Bool :=
  match a, b with
  | none, _ => true
  | some _, none => false
  | some x, some y => x ≤ y

/-- Stable descending insertion by the range key. -/
def insertRangeDesc (p : Product) : List Product → List Product
  | [] => [p]
  | q :: rest =>
    if keyLe (productRange q) (productRange p) then p :: q :: rest
    else q :: insertRangeDesc p rest

/-- Stable descending sort by the range key: the deterministic reading
of the store sort (documents with equal keys keep their stored order). -/
def sortRangeDesc : List Product → List Product
  | [] => []
  | p :: rest => insertRangeDesc p (sortRangeDesc rest)

/-- ProductService.topProducts: Product.find({}).sort with range : -1,
then limit(3). -/
def ProductService.topProducts (store : List Product) : List Product :=
  (sortRangeDesc store).take 3

/-- Numeric comparison used only to state the rating-descending
property the spec claims of topProducts. -/
def jsNumGeB (x y : JSNum) : Bool :=
  match x, y with
  | .num a, .num b => decide (b ≤ a)
  | _, _ => false

/-- The ratings of consecutive returned products are non-increasing. -/
def ratingsDescB : List Product → Bool
  | [] => true
  | [_] => true
  | a :: b :: rest => jsNumGeB a.rating b.rating && ratingsDescB (b :: rest)

/-- The sum the source computes with reduce over the reviews, starting
from 0. -/
def sumRatings (l : List Review) : JSNum :=
  l.foldl (fun acc item => jsAdd item.rating acc) (.num 0)

/-- ProductService.productReview.  The product is loaded through
this.getById (the BaseService wrapper); an absent product throws
Product not found; an existing review by the same user id throws
Product already reviewed before any mutation; otherwise the review is
appended, numReviews is set to the new collection length, rating to the
reduce-sum divided by the new length, and the product is saved (awaited).
The saved product is returned as the persisted state. -/
def ProductService.productReview (findById : Except String (Option Product))
    (save : Product → Except String Product) (user : JSUser)
    (rating : JSValue) (comment : String) : Except String Product :=
  match BaseService.getById findById with
  | .error e => .error e
  | .ok (some product) =>
    if (product.reviews.find? (fun r => r.user == user._id)).isSome then
      .error "Product already reviewed"
    else
      let review : Review :=
        { name := user.name, rating := jsToNumber rating,
          comment := comment, user := user._id }
      let reviews := product.reviews ++ [review]
      let product' : Product :=
        { product with
            reviews := reviews,
            numReviews := reviews.length,
            rating := jsDiv (sumRatings reviews) (.num reviews.length) }
      save product'
  | .ok none => .error "Product not found"

/-- productReview run against a fault-free document store holding a list
of products: findById resolves to the first product with the given id,
and a successful save writes the document back by id.  Returns the
outcome together with the store after the call. -/
def productReviewOnStore (store : List Product) (productId : Nat)
    (user : JSUser) (rating : JSValue) (comment : String) :
    Except String Unit × List Product :=
  match ProductService.productReview
      (.ok (store.find? (fun p => p._id == productId)))
      (fun p' => .ok p') user rating comment with
  | .error e => (.error e, store)
  | .ok p' => (.ok (), store.map (fun q => if q._id == p'._id then p' else q))

/-- A value inside a JSON response payload. -/
inductive PValue where
  | str (s : String)
  | nat (n : Nat)
  | bool (b : Bool)
deriving DecidableEq, Repr

/-- A JSON response body: the data object as an ordered key-value list.
The human-readable message strings come from a localized catalog outside
the verified sources and are not modelled. -/
abbrev Payload := List (String × PValue)

/-- Key lookup in a payload. -/
def payloadGet (d : Payload) (k : String) : Option PValue :=
  match d with
  | [] => none
  | (k', v) :: rest => if k' = k then some v else payloadGet rest k

/-- The HTTP response object: at most one response can be sent. -/
structure Res where
  sent : Option (Nat × Option Payload) := none
deriving DecidableEq, Repr

/-- res.status(code).json(body): succeeds when nothing was sent yet;
a second send throws ERR_HTTP_HEADERS_SENT and the response on the wire
stays the first one (the thrown state is carried in the error). -/
def resSend (res : Res) (status : Nat) (body : Option Payload) :
    Except Res Res :=
  match res.sent with
  | some _ => .error res
  | none => .ok { sent := some (status, body) }

/-- A stored user record.  The password field holds whatever the create
path persists; hashing happens in the model layer outside the verified
sources and is irrelevant to these claims. -/
structure UserRecord where
  _id : Nat
  firstname : String
  lastname : String
  email : String
  password : String
  isAdmin : Bool
deriving DecidableEq, Repr

/-- The body of a register request; a missing field arrives as the empty
string (JS falsy, matching the destructured undefined). -/
structure RegisterRequest where
  firstname : String
  lastname : String
  email : String
  password : String
deriving DecidableEq, Repr

/-- userService.create through BaseService.create against a fault-free
store: the new document is saved with a fresh id (modelled as the store
size) and the default isAdmin false, and is appended to the collection. -/
def createUser (store : List UserRecord) (r : RegisterRequest) :
    UserRecord × List UserRecord :=
  let u : UserRecord :=
    { _id := store.length, firstname := r.firstname, lastname := r.lastname,
      email := r.email, password := r.password, isAdmin := false }
  (u, store ++ [u])

/-- The data object of the 201 response: the field list the source
builds, literally, plus the token issued for the created id. -/
def registerSuccessData (tok : Nat → String) (u : UserRecord) : Payload :=
  [("_id", .nat u._id), ("firstname", .str u.firstname),
   ("lastname", .str u.lastname), ("email", .str u.email),
   ("isAdmin", .bool u.isAdmin), ("token", .str (tok u._id))]

/-- The catch block of register: attempts res.status(500).json; if the
headers were already sent this throws again and the response on the wire
is unchanged. -/
def registerCatch (res : Res) (store : List UserRecord) :
    Res × List UserRecord :=
  match resSend res 500 none with
  | .ok res' => (res', store)
  | .error res' => (res', store)

/-- The register handler of UserController, over a fault-free user
store, parameterized by the email validator and token issuer (both live
outside the verified sources).  Mirrors the source control flow: body
and field validations first; then, inside the try block, the duplicate
check sends 409 WITHOUT returning, the email-format check may send 400
and return, and the create-then-201 path runs; a second send throws into
the catch block.  Returns the response on the wire and the final store. -/
def register (validEmail : String → Bool) (tok : Nat → String)
    (store : List UserRecord) (req : Option RegisterRequest) :
    Res × List UserRecord :=
  match req with
  | none => ({ sent := some (422, none) }, store)
  | some r =>
    if r.firstname = "" then ({ sent := some (400, none) }, store)
    else if r.lastname = "" then ({ sent := some (400, none) }, store)
    else if r.email = "" then ({ sent := some (400, none) }, store)
    else if r.password = "" then ({ sent := some (400, none) }, store)
    else
      let res : Res := {}
      let userExists := (store.find? (fun u => u.email == r.email)).isSome
      match (if userExists then resSend res 409 none else .ok res) with
      | .error res' => registerCatch res' store
      | .ok res' =>
        if !(validEmail r.email) then
          match resSend res' 400 none with
          | .error res'' => registerCatch res'' store
          | .ok res'' => (res'', store)
        else
          let (created, store') := createUser store r
          match resSend res' 201 (some (registerSuccessData tok created)) with
          | .error res'' => registerCatch res'' store'
          | .ok res'' => (res'', store')

lemma docGet_of_not_mem_keys (d : Doc) (k : String)
    (h : k ∉ d.map Prod.fst) : Doc.get d k = none := by
  induction d with
  | nil => rfl
  | cons kv rest ih =>
    obtain ⟨k', v'⟩ := kv
    simp only [List.map_cons, List.mem_cons] at h
    push_neg at h
    simp [Doc.get, Ne.symm h.1, ih h.2]

lemma docGet_setField_self (d : Doc) (k : String) (v : Val) :
    Doc.get (setField d (k, v)) k = some v := by
  induction d with
  | nil => simp [setField, Doc.get]
  | cons kv rest ih =>
    obtain ⟨k', v'⟩ := kv
    by_cases h : k' = k
    · simp [setField, h, Doc.get]
    · simp [setField, h, Doc.get, ih]

lemma docGet_setField_other (d : Doc) (k j : String) (v : Val)
    (h : j ≠ k) : Doc.get (setField d (k, v)) j = Doc.get d j := by
  induction d with
  | nil => simp [setField, Doc.get, Ne.symm h]
  | cons kv rest ih =>
    obtain ⟨k', v'⟩ := kv
    by_cases hk : k' = k
    · subst hk
      simp [setField, Doc.get, Ne.symm h]
    · simp [setField, hk, Doc.get, ih]

lemma docGet_objectAssign (data : Doc) (item : Doc) (k : String)
    (h : (data.map Prod.fst).Nodup) :
    Doc.get (objectAssign item data) k =
      match Doc.get data k with
      | some v => some v
      | none => Doc.get item k := by
  induction data generalizing item with
  | nil => simp [objectAssign, Doc.get]
  | cons kv rest ih =>
    obtain ⟨k₀, v₀⟩ := kv
    simp only [List.map_cons, List.nodup_cons] at h
    have step : objectAssign item ((k₀, v₀) :: rest)
        = objectAssign (setField item (k₀, v₀)) rest := rfl
    rw [step, ih (setField item (k₀, v₀)) h.2]
    by_cases hk : k₀ = k
    · subst hk
      have hrest : Doc.get rest k₀ = none :=
        docGet_of_not_mem_keys rest k₀ h.1
      simp [Doc.get, hrest, docGet_setField_self]
    · simp [Doc.get, hk, docGet_setField_other _ _ _ _ (fun hh => hk hh.symm)]

/-- C8: update merges the supplied fields onto the existing record by
shallow field overwrite and persists the result: every field named in
data takes the supplied value, every other field of the record keeps its
previous value. -/
theorem c8_update_shallow_merge (modelName : String) (item data : Doc)
    (k : String) (h : (data.map Prod.fst).Nodup) :
    BaseService.update modelName (.ok (some item)) (fun d => .ok d) data
      = .ok (objectAssign item data) ∧
    (∀ v, Doc.get data k = some v →
      Doc.get (objectAssign item data) k = some v) ∧
    (Doc.get data k = none →
      Doc.get (objectAssign item data) k = Doc.get item k) := by
  refine ⟨rfl, ?_, ?_⟩
  · intro v hv
    rw [docGet_objectAssign data item k h, hv]
  · intro hv
    rw [docGet_objectAssign data item k h, hv]

/-- Witness for C8 at a concrete record and patch. -/
theorem c8_update_shallow_merge_witness :
    ((([("b", Val.num 3), ("c", Val.num 4)] : Doc).map Prod.fst).Nodup) ∧
    (BaseService.update "User"
        (.ok (some [("a", Val.num 1), ("b", Val.num 2)])) (fun d => .ok d)
        [("b", Val.num 3), ("c", Val.num 4)]
      = .ok (objectAssign [("a", Val.num 1), ("b", Val.num 2)]
          [("b", Val.num 3), ("c", Val.num 4)]) ∧
    (∀ v, Doc.get [("b", Val.num 3), ("c", Val.num 4)] "b" = some v →
      Doc.get (objectAssign [("a", Val.num 1), ("b", Val.num 2)]
        [("b", Val.num 3), ("c", Val.num 4)]) "b" = some v) ∧
    (Doc.get [("b", Val.num 3), ("c", Val.num 4)] "b" = none →
      Doc.get (objectAssign [("a", Val.num 1), ("b", Val.num 2)]
          [("b", Val.num 3), ("c", Val.num 4)]) "b"
        = Doc.get [("a", Val.num 1), ("b", Val.num 2)] "b")) :=
  ⟨by decide,
   c8_update_shallow_merge "User" [("a", Val.num 1), ("b", Val.num 2)]
     [("b", Val.num 3), ("c", Val.num 4)] "b" (by decide)⟩

/-- C4 counterexample: with an absent record, update does not fail with
the bare not-found error; the internal throw is caught by the operations
own catch and surfaces in the generic wrapped StoreFailure form. -/
theorem c4_counterexample :
    BaseService.update "Product" (.ok none) (fun d => .ok d) []
      = .error "Error on updating item : Product not found" ∧
    "Error on updating item : Product not found" ≠ notFoundMessage "Product" ∧
    isUpdateWrapped "Error on updating item : Product not found" :=
  ⟨rfl, by decide, ⟨"Product not found", rfl⟩⟩

/-- C4 amended: for an absent id, getById resolves to a null result with
no error, while update and delete fail with the not-found cause wrapped
in the generic update and delete prefixes (their own catch re-wraps the
internal not-found throw), the same wrapped form a store failure takes. -/
theorem c4_absent_id_behavior (modelName : String)
    (save : Doc → Except String Doc) (data : Doc)
    (remove : Doc → Except String Doc) :
    @BaseService.getById Doc (.ok none) = .ok none ∧
    BaseService.update modelName (.ok none) save data
      = .error ("Error on updating item : " ++ notFoundMessage modelName) ∧
    BaseService.delete modelName (.ok none) remove
      = .error ("Error on deleting item : " ++ notFoundMessage modelName) :=
  ⟨rfl, rfl, rfl⟩

/-- C5: getById and create wrap a store rejection with their prefixes,
but update and delete return the save and remove promises without
awaiting them, so a rejection there escapes the catch unwrapped: the raw
store message reaches the caller without the generic service prefix. -/
theorem c5_store_rejection_escapes_unwrapped :
    BaseService.update "Product" (.ok (some [])) (fun _ => .error "boom") []
      = .error "boom" ∧
    ¬ isUpdateWrapped "boom" ∧
    @BaseService.delete Doc "Product" (.ok (some []))
        (fun _ => .error "boom")
      = .error "boom" ∧
    @BaseService.getById Doc (.error "boom")
      = .error ("Error while retrieving this item : boom") ∧
    @BaseService.create Doc (.error "boom")
      = .error ("Error creating item : boom") := by
  refine ⟨rfl, ?_, rfl, rfl, rfl⟩
  rintro ⟨c, hc⟩
  have hlen : ("boom".length : Nat)
      = "Error on updating item : ".length + c.length := by
    rw [hc, String.length_append]
  have h4 : ("boom".length : Nat) = 4 := rfl
  have h25 : ("Error on updating item : ".length : Nat) = 25 := rfl
  omega

/-- A catalog of 25 distinct products with no reviews. -/
def store25 : List Product :=
  (List.range 25).map (fun i =>
    { _id := i, name := String.append "p" (toString i), reviews := [],
      numReviews := 0, rating := .num 0 })

/-- C2: every call to allProducts throws before building the query,
because the condition reads the unbound identifier keyword (the
parameter is named keywords); in particular the documented
allProducts(1, 10, "") over 25 products does not return a page of 10
products with pages = 3 but this ReferenceError. -/
theorem c2_allProducts_reference_error :
    (∀ (store : List Product) (pageNumber pageSize : Int)
        (keywords : String),
      ProductService.allProducts store pageNumber pageSize keywords
        = .error "ReferenceError: keyword is not defined") ∧
    ProductService.allProducts store25 1 10 ""
      = .error "ReferenceError: keyword is not defined" :=
  ⟨fun _ _ _ _ => rfl, rfl⟩

/-- A three-product catalog whose stored order is not rating-descending. -/
def topStore : List Product :=
  [{ _id := 1, name := "low", reviews := [], numReviews := 0, rating := .num 1 },
   { _id := 2, name := "high", reviews := [], numReviews := 0, rating := .num 5 },
   { _id := 3, name := "mid", reviews := [], numReviews := 0, rating := .num 3 }]

/-- C3: topProducts does return at most 3 products, but it sorts on the
range path, which no product document has, so every sort key is null and
the stored order comes back unchanged: over ratings [1, 5, 3] the result
is not ordered by rating descending. -/
theorem c3_topProducts_not_rating_ordered :
    (∀ store : List Product, (ProductService.topProducts store).length ≤ 3) ∧
    ProductService.topProducts topStore = topStore ∧
    topStore.map Product.rating = [.num 1, .num 5, .num 3] ∧
    ratingsDescB (ProductService.topProducts topStore) = false := by
  refine ⟨?_, rfl, rfl, by decide⟩
  intro store
  have h := List.length_take 3 (sortRangeDesc store)
  simp only [ProductService.topProducts]
  omega

/-- An unreviewed product used by the concrete review scenarios. -/
def demoProduct : Product :=
  { _id := 1, name := "Widget", reviews := [], numReviews := 0,
    rating := .num 0 }

def demoUserA : JSUser := { _id := 11, name := "A" }

def demoUserB : JSUser := { _id := 12, name := "B" }

def demoUserC : JSUser := { _id := 13, name := "C" }

/-- Store after demoUserA submits rating 5 on the fresh product. -/
def demoStore1 : List Product :=
  (productReviewOnStore [demoProduct] 1 demoUserA (.num 5) "r1").2

/-- Store after demoUserB then submits rating 3. -/
def demoStore2 : List Product :=
  (productReviewOnStore demoStore1 1 demoUserB (.num 3) "r2").2

/-- Store after demoUserC then submits rating 4. -/
def demoStore3 : List Product :=
  (productReviewOnStore demoStore2 1 demoUserC (.num 4) "r3").2

/-- C6: a second review by the same user on the same product fails with
the already-reviewed error and the store is returned unchanged, so the
first submissions reviews, numReviews and rating all persist; moreover a
successful submission preserves distinctness of reviewer ids, so at most
one review per product and user pair ever exists. -/
theorem c6_duplicate_review_rejected :
    (∀ (store : List Product) (productId : Nat) (user : JSUser)
        (rating : JSValue) (comment : String) (p : Product),
      store.find? (fun q => q._id == productId) = some p →
      (p.reviews.find? (fun r => r.user == user._id)).isSome = true →
      productReviewOnStore store productId user rating comment
        = (.error "Product already reviewed", store)) ∧
    (∀ (p : Product) (user : JSUser) (rating : JSValue) (comment : String)
        (p' : Product),
      (p.reviews.map Review.user).Nodup →
      ProductService.productReview (.ok (some p)) (fun x => .ok x) user
          rating comment = .ok p' →
      (p'.reviews.map Review.user).Nodup) := by
  constructor
  · intro store productId user rating comment p hfind hdup
    simp [productReviewOnStore, hfind, ProductService.productReview,
      BaseService.getById, hdup]
  · intro p user rating comment p' hnd hsucc
    by_cases hd : (p.reviews.find? (fun r => r.user == user._id)).isSome
    · simp [ProductService.productReview, BaseService.getById, hd] at hsucc
    · simp [ProductService.productReview, BaseService.getById, hd] at hsucc
      have hnone : p.reviews.find? (fun r => r.user == user._id) = none := by
        cases hf : p.reviews.find? (fun r => r.user == user._id) with
        | none => rfl
        | some r => exact absurd (by simp [hf]) hd
      rw [List.find?_eq_none] at hnone
      subst hsucc
      simp only [List.map_append, List.map_cons, List.map_nil]
      rw [List.nodup_append]
      refine ⟨hnd, List.nodup_singleton _, ?_⟩
      intro a ha hmem
      simp only [List.mem_singleton] at hmem
      subst hmem
      obtain ⟨r, hr, hru⟩ := List.mem_map.mp ha
      exact absurd (by simp [hru]) (hnone r hr)

/-- The product as persisted after the first demo review (rating 5 by
demoUserA). -/
def demoProduct1 : Product :=
  { _id := 1, name := "Widget",
    reviews := [{ name := "A", rating := .num 5, comment := "r1", user := 11 }],
    numReviews := 1, rating := .num 5 }

/-- The product as persisted after demoUserB adds rating 3. -/
def demoProductAB : Product :=
  { _id := 1, name := "Widget",
    reviews := [{ name := "A", rating := .num 5, comment := "r1", user := 11 },
                { name := "B", rating := .num 3, comment := "r2", user := 12 }],
    numReviews := 2, rating := .num 4 }

/-- The product as persisted after demoUserC adds rating 4. -/
def demoProductABC : Product :=
  { _id := 1, name := "Widget",
    reviews := [{ name := "A", rating := .num 5, comment := "r1", user := 11 },
                { name := "B", rating := .num 3, comment := "r2", user := 12 },
                { name := "C", rating := .num 4, comment := "r3", user := 13 }],
    numReviews := 3, rating := .num 4 }

/-- The product as persisted after a single review whose rating argument
was the string "4". -/
def demoProductS4 : Product :=
  { _id := 1, name := "Widget",
    reviews := [{ name := "A", rating := .num 4, comment := "s1", user := 11 }],
    numReviews := 1, rating := .num 4 }

lemma demoStore1_eq : demoStore1 = [demoProduct1] := by
  norm_num [demoStore1, productReviewOnStore, ProductService.productReview,
    BaseService.getById, sumRatings, jsAdd, jsDiv, jsToNumber,
    demoProduct, demoProduct1, demoUserA]

lemma demoStore2_eq : demoStore2 = [demoProductAB] := by
  rw [demoStore2, demoStore1_eq]
  norm_num [productReviewOnStore, ProductService.productReview,
    BaseService.getById, sumRatings, jsAdd, jsDiv, jsToNumber,
    demoProduct1, demoProductAB, demoUserB]

lemma demoStore3_eq : demoStore3 = [demoProductABC] := by
  rw [demoStore3, demoStore2_eq]
  norm_num [productReviewOnStore, ProductService.productReview,
    BaseService.getById, sumRatings, jsAdd, jsDiv, jsToNumber,
    demoProductAB, demoProductABC, demoUserC]

lemma strToNumber_four : strToNumber "4" = .num 4 := by decide

lemma strToNumber_abc : strToNumber "abc" = .nan := by decide

lemma review_a_eq : ProductService.productReview (.ok (some demoProduct))
    (fun x => .ok x) demoUserA (.num 5) "r1" = .ok demoProduct1 := by
  norm_num [ProductService.productReview, BaseService.getById, sumRatings,
    jsAdd, jsDiv, jsToNumber, demoProduct, demoProduct1, demoUserA]

lemma review_ab_eq : ProductService.productReview (.ok (some demoProduct1))
    (fun x => .ok x) demoUserB (.num 3) "r2" = .ok demoProductAB := by
  norm_num [ProductService.productReview, BaseService.getById, sumRatings,
    jsAdd, jsDiv, jsToNumber, demoProduct1, demoProductAB, demoUserB]

lemma review_s4_eq : ProductService.productReview (.ok (some demoProduct))
    (fun x => .ok x) demoUserA (.str "4") "s1" = .ok demoProductS4 := by
  norm_num [ProductService.productReview, BaseService.getById, sumRatings,
    jsAdd, jsDiv, jsToNumber, strToNumber_four, demoProduct,
    demoProductS4, demoUserA]

lemma review_nan_eq : (productReviewOnStore [demoProduct] 1 demoUserA
    (.str "abc") "bad").2.map Product.rating = [.nan] := by
  norm_num [productReviewOnStore, ProductService.productReview,
    BaseService.getById, sumRatings, jsAdd, jsDiv, jsToNumber,
    strToNumber_abc, demoProduct, demoUserA]

/-- Witness for C6: a concrete duplicate submission is rejected with the
store unchanged, and a concrete successful submission preserves
distinctness of reviewer ids. -/
theorem c6_duplicate_review_rejected_witness :
    (demoStore1.find? (fun q => q._id == 1) = some demoProduct1 ∧
     (demoProduct1.reviews.find?
        (fun r => r.user == demoUserA._id)).isSome = true ∧
     productReviewOnStore demoStore1 1 demoUserA (.num 2) "again"
       = (.error "Product already reviewed", demoStore1)) ∧
    ((demoProduct1.reviews.map Review.user).Nodup ∧
     ProductService.productReview (.ok (some demoProduct1)) (fun x => .ok x)
         demoUserB (.num 3) "r2" = .ok demoProductAB ∧
     (demoProductAB.reviews.map Review.user).Nodup) :=
  ⟨⟨by rw [demoStore1_eq]; decide, by decide,
    c6_duplicate_review_rejected.1 demoStore1 1 demoUserA (.num 2) "again"
      demoProduct1 (by rw [demoStore1_eq]; decide) (by decide)⟩,
   ⟨by decide, review_ab_eq,
    c6_duplicate_review_rejected.2 demoProduct1 demoUserB (.num 3) "r2"
      demoProductAB (by decide) review_ab_eq⟩⟩

/-- C7: every successful review submission persists numReviews equal to
the new length of the review collection and rating equal to the
reduce-sum of all review ratings divided by that length; concretely,
submitting ratings 5, 3, 4 on the initially-unreviewed product leaves
the store with numReviews = 3 and rating = 4. -/
theorem c7_rating_recomputation (p : Product) (user : JSUser)
    (rating : JSValue) (comment : String) (p' : Product)
    (hsucc : ProductService.productReview (.ok (some p)) (fun x => .ok x)
        user rating comment = .ok p') :
    p'.numReviews = p'.reviews.length ∧
    p'.rating = jsDiv (sumRatings p'.reviews) (.num p'.reviews.length) ∧
    demoStore3.map Product.numReviews = [3] ∧
    demoStore3.map Product.rating = [.num 4] := by
  refine ⟨?_, ?_, by rw [demoStore3_eq]; decide, by rw [demoStore3_eq]; decide⟩
  all_goals
    by_cases hd : (p.reviews.find? (fun r => r.user == user._id)).isSome
  all_goals
    simp [ProductService.productReview, BaseService.getById, hd] at hsucc
  all_goals subst hsucc
  all_goals simp

/-- Witness for C7 at the first demo submission. -/
theorem c7_rating_recomputation_witness :
    ProductService.productReview (.ok (some demoProduct)) (fun x => .ok x)
        demoUserA (.num 5) "r1" = .ok demoProduct1 ∧
    (demoProduct1.numReviews = demoProduct1.reviews.length ∧
     demoProduct1.rating = jsDiv (sumRatings demoProduct1.reviews)
       (.num demoProduct1.reviews.length) ∧
     demoStore3.map Product.numReviews = [3] ∧
     demoStore3.map Product.rating = [.num 4]) :=
  ⟨review_a_eq,
   c7_rating_recomputation demoProduct demoUserA (.num 5) "r1" demoProduct1
     review_a_eq⟩

/-- C10: the stored rating of a new review is the JS numeric coercion of
the supplied rating argument: the string "4" is stored as the number 4,
a non-numeric string is stored as NaN, and that NaN propagates into the
recomputed mean rating of the product. -/
theorem c10_rating_coercion (p : Product) (user : JSUser)
    (rating : JSValue) (comment : String) (p' : Product)
    (hsucc : ProductService.productReview (.ok (some p)) (fun x => .ok x)
        user rating comment = .ok p') :
    p'.reviews.getLast?
      = some { name := user.name, rating := jsToNumber rating,
               comment := comment, user := user._id } ∧
    jsToNumber (.str "4") = .num 4 ∧
    jsToNumber (.str "abc") = .nan ∧
    (productReviewOnStore [demoProduct] 1 demoUserA
        (.str "abc") "bad").2.map Product.rating = [.nan] := by
  refine ⟨?_, strToNumber_four, strToNumber_abc, review_nan_eq⟩
  by_cases hd : (p.reviews.find? (fun r => r.user == user._id)).isSome
  · simp [ProductService.productReview, BaseService.getById, hd] at hsucc
  · simp [ProductService.productReview, BaseService.getById, hd] at hsucc
    subst hsucc
    simp

/-- Witness for C10: the rating argument "4" is coerced and stored as
the number 4. -/
theorem c10_rating_coercion_witness :
    ProductService.productReview (.ok (some demoProduct)) (fun x => .ok x)
        demoUserA (.str "4") "s1" = .ok demoProductS4 ∧
    (demoProductS4.reviews.getLast?
       = some { name := demoUserA.name, rating := jsToNumber (.str "4"),
                comment := "s1", user := demoUserA._id } ∧
     jsToNumber (.str "4") = .num 4 ∧
     jsToNumber (.str "abc") = .nan ∧
     (productReviewOnStore [demoProduct] 1 demoUserA (.str "abc") "bad").2.map
         Product.rating = [.nan]) :=
  ⟨review_s4_eq,
   c10_rating_coercion demoProduct demoUserA (.str "4") "s1" demoProductS4
     review_s4_eq⟩

/-- A user already registered with the demo email address. -/
def c1ExistingUser : UserRecord :=
  { _id := 0, firstname := "x", lastname := "y", email := "e@x.com",
    password := "h", isAdmin := false }

/-- A well-formed registration request re-using that email address. -/
def c1Request : RegisterRequest :=
  { firstname := "a", lastname := "b", email := "e@x.com", password := "p" }

/-- C1: registering an already-registered email sends the 409 conflict
response, but the handler does not return after it and proceeds to
create the user anyway: the final store holds two records with that
email, so uniqueness is not enforced at creation. -/
theorem c1_duplicate_email_still_created :
    (register (fun _ => true) (fun _ => "tok") [c1ExistingUser]
        (some c1Request)).1.sent = some (409, none) ∧
    ((register (fun _ => true) (fun _ => "tok") [c1ExistingUser]
        (some c1Request)).2.filter (fun u => u.email == "e@x.com")).length
      = 2 := by
  decide

/-- C9: on the success path (all fields present, email unregistered and
valid), register responds 201 with exactly the public projection of the
created record plus a token issued for the new id; the payload contains
neither a password nor a passwordHash field, and the created record is
appended to the store. -/
theorem c9_register_success_payload (validEmail : String → Bool)
    (tok : Nat → String) (store : List UserRecord) (r : RegisterRequest)
    (h1 : r.firstname ≠ "") (h2 : r.lastname ≠ "") (h3 : r.email ≠ "")
    (h4 : r.password ≠ "")
    (h5 : store.find? (fun u => u.email == r.email) = none)
    (h6 : validEmail r.email = true) :
    register validEmail tok store (some r)
      = ({ sent := some (201,
             some (registerSuccessData tok (createUser store r).1)) },
         (createUser store r).2) ∧
    payloadGet (registerSuccessData tok (createUser store r).1) "token"
      = some (.str (tok (createUser store r).1._id)) ∧
    "password" ∉ (registerSuccessData tok (createUser store r).1).map Prod.fst ∧
    "passwordHash"
      ∉ (registerSuccessData tok (createUser store r).1).map Prod.fst := by
  refine ⟨?_, ?_, ?_, ?_⟩
  · simp [register, h1, h2, h3, h4, h5, h6, resSend, createUser]
  · simp [registerSuccessData, payloadGet]
  · simp [registerSuccessData]
  · simp [registerSuccessData]

/-- A fresh registration request for the C9 witness. -/
def c9Request : RegisterRequest :=
  { firstname := "a", lastname := "b", email := "c@d", password := "p" }

/-- Witness for C9 on an empty store with a concrete request. -/
theorem c9_register_success_payload_witness :
    ((c9Request.firstname ≠ "") ∧ (c9Request.lastname ≠ "") ∧
     (c9Request.email ≠ "") ∧ (c9Request.password ≠ "") ∧
     (([] : List UserRecord).find? (fun u => u.email == c9Request.email)
        = none) ∧
     ((fun _ : String => true) c9Request.email = true)) ∧
    (register (fun _ => true) (fun _ => "tok") [] (some c9Request)
      = ({ sent := some (201,
             some (registerSuccessData (fun _ => "tok")
               (createUser [] c9Request).1)) },
         (createUser [] c9Request).2) ∧
    payloadGet (registerSuccessData (fun _ => "tok")
        (createUser [] c9Request).1) "token"
      = some (.str ((fun _ => "tok") (createUser [] c9Request).1._id)) ∧
    "password" ∉ (registerSuccessData (fun _ => "tok")
        (createUser [] c9Request).1).map Prod.fst ∧
    "passwordHash" ∉ (registerSuccessData (fun _ => "tok")
        (createUser [] c9Request).1).map Prod.fst) :=
  ⟨⟨by decide, by decide, by decide, by decide, rfl, rfl⟩,
   c9_register_success_payload (fun _ => true) (fun _ => "tok") [] c9Request
     (by decide) (by decide) (by decide) (by decide) rfl rfl⟩
